import Mathlib

/-!
Verification of the cloud-build discord notifier (src/main.go).

The Go program is shallowly embedded: the build event, the rendered
message and the notifier state are Lean structures; the side effects the
program performs (HTTP GET/POST, log lines) are recorded in an explicit
effect trace; the pieces of the outside world the program consults (the
DOJO_URL environment variable, the outcome of the secondary GET, the
outcome of the primary POST) are a `World` record threaded through the
functions.
-/

namespace DiscordNotifier

/-! ## Data model -/

/-- The `cbpb.Build_Status` proto enum values. -/
inductive BuildStatus where
  | statusUnknown
  | queued
  | working
  | success
  | failure
  | internalError
  | timeout
  | cancelled
  | expired
  | pending
deriving DecidableEq

/-- The proto enum name, as printed by Go `fmt` verbs on `build.Status`. -/
def statusName : BuildStatus → String
  | .statusUnknown => "STATUS_UNKNOWN"
  | .queued => "QUEUED"
  | .working => "WORKING"
  | .success => "SUCCESS"
  | .failure => "FAILURE"
  | .internalError => "INTERNAL_ERROR"
  | .timeout => "TIMEOUT"
  | .cancelled => "CANCELLED"
  | .expired => "EXPIRED"
  | .pending => "PENDING"

/-- The repo source reference reached through `build.Source.GetRepoSource()`. -/
structure RepoSource where
  RepoName : String
deriving DecidableEq

/-- The fields of `cbpb.Build` the notifier reads.  `Substitutions` models the
Go map `build.Substitutions`: a total function where an absent key yields the
zero value `""`, exactly as a Go map read does.  `Source` is the result of
`build.Source.GetRepoSource()`: `none` when the build has no source or the
source is not a repo source. -/
structure Build where
  Id : String
  Status : BuildStatus
  ProjectId : String
  LogUrl : String
  Substitutions : String → String
  Source : Option RepoSource

/-- Go struct `embed` from main.go. -/
structure embed where
  Title : String
  Color : Int
  Description : String
deriving DecidableEq

/-- Go struct `discordMessage` from main.go. -/
structure discordMessage where
  Content : String := ""
  Embeds : List embed
deriving DecidableEq

/-- The notifier state after `SetUp`: the (optional) CEL filter, modelled as
its extension, a boolean predicate on builds, and the webhook URL secret. -/
structure discordNotifier where
  filter : Option (Build → Bool)
  webhookURL : String

/-! ## Effects and the outside world -/

/-- JSON values, the wire format `json.Marshal` targets. -/
inductive JValue where
  | jstr (s : String)
  | jnum (n : Int)
  | jarr (xs : List JValue)
  | jobj (fields : List (String × JValue))

/-- One observable side effect of the program. -/
inductive Effect where
  | httpGet (url : String)
  | httpPost (url : String) (body : JValue)
  | logInfo (s : String)
  | logError (s : String)

/-- Outcome of the primary `http.Post`: either a transport-level error or a
response carrying some HTTP status code. -/
inductive PostOutcome where
  | transportError (e : String)
  | response (code : Nat)
deriving DecidableEq

/-- The parts of the environment the notifier consults while handling one
event: the `DOJO_URL` environment variable, whether the secondary GET fails
(and with what error), and the outcome of the primary POST. -/
structure World where
  dojoURL : String
  dojoGetError : Option String
  postOutcome : PostOutcome

/-- Number of `httpPost` effects in a trace. -/
def postCount : List Effect → Nat
  | [] => 0
  | .httpPost _ _ :: rest => postCount rest + 1
  | _ :: rest => postCount rest

/-- Number of `httpGet` effects in a trace. -/
def getCount : List Effect → Nat
  | [] => 0
  | .httpGet _ :: rest => getCount rest + 1
  | _ :: rest => getCount rest

/-! ## Go `strings.Contains` -/

/-- Substring containment on character lists: `pat` occurs somewhere in the
list.  Mirrors Go `strings.Contains` (which also returns true for the empty
pattern). -/
def containsSub (pat : List Char) : List Char → Bool
  | [] => pat.isEmpty
  | c :: rest => pat.isPrefixOf (c :: rest) || containsSub pat rest

/-- Go `strings.Contains s pat`. -/
def strContains (s pat : String) : Bool :=
  containsSub pat.toList s.toList

/-! ## The program -/

/-- Go `callDojo` (main.go): read `DOJO_URL`; if non-empty, GET it, logging
an error on failure and an info line on success; if empty, do nothing.  The
function returns no value, only effects. -/
def callDojo (w : World) : List Effect :=
  if w.dojoURL ≠ "" then
    .httpGet w.dojoURL ::
      (match w.dojoGetError with
       | some e => [.logError ("Failed to call dojo " ++ e)]
       | none => [.logInfo "Successfully called dojo"])
  else []

/-- The description built in the WORKING / FAILURE / INTERNAL_ERROR / TIMEOUT
branches of the switch in `buildMessage`. -/
def descBase (b : Build) : String :=
  "Build ID: " ++ b.Id ++ "\nService: " ++ b.Substitutions "_APP_NAME" ++
    "\nEnvironment: " ++ b.ProjectId ++ "\nLogs: " ++ b.LogUrl

/-- The description built in the SUCCESS branch: the base description plus the
Access line. -/
def descSuccess (b : Build) : String :=
  descBase b ++ "\nAccess: " ++ b.Substitutions "_URL"

/-- The `switch build.Status` in `buildMessage`: the embeds appended and the
effects performed inside the switch (the conditional `callDojo()` in the
SUCCESS case, the info log in the default case). -/
def switchEmbeds (w : World) (b : Build) : List embed × List Effect :=
  match b.Status with
  | .working =>
      ([{ Title := "🔨 BUILDING", Color := 1027128, Description := descBase b }], [])
  | .success =>
      ([{ Title := "✅ SUCCESS", Color := 1127128, Description := descSuccess b }],
       if strContains (b.Substitutions "_APP_NAME") "backend" then callDojo w else [])
  | .failure | .internalError | .timeout =>
      ([{ Title := "❌ ERROR - " ++ statusName b.Status, Color := 14177041,
          Description := descBase b }], [])
  | s => ([], [.logInfo ("Unknown status " ++ statusName s)])

/-- The post-processing step `embeds[0].Description = sourceText`, guarded in
the Go code by `len(embeds) > 0 && len(sourceText) > 0`. -/
def overlayFirst (sourceText : String) : List embed → List embed
  | [] => []
  | e :: rest =>
      if sourceText = "" then e :: rest
      else { e with Description := sourceText } :: rest

/-- The `sourceText` computed at the top of `buildMessage`: `""` when no repo
source is present, the repo name otherwise. -/
def sourceTextOf (b : Build) : String :=
  match b.Source with
  | some r => r.RepoName
  | none => ""

/-- Go `buildMessage` (main.go): compute `sourceText` from the repo source,
run the status switch, overlay the first embed's description with the repo
name when both are non-empty, and return either no message (unknown status)
or a message holding the embeds.  The Go function returns
`(*discordMessage, error)`; the result's first component is that pair (the
error is the `error` return value), the second is the effect trace. -/
def buildMessage (w : World) (b : Build) :
    (Option discordMessage × Option String) × List Effect :=
  let sourceText := sourceTextOf b
  let res := switchEmbeds w b
  let embeds := overlayFirst sourceText res.1
  let effs := Effect.logInfo ("repo info " ++ sourceText) :: res.2
  if embeds.isEmpty then
    ((none, none),
     effs ++ [.logInfo ("unhandled status - skipping notification " ++ statusName b.Status)])
  else
    ((some { Content := "", Embeds := embeds }, none), effs)

/-! ## JSON serialization of the payload -/

/-- `json.Marshal` on one `embed`, following the struct tags
`title` / `color` / `description`. -/
def encodeEmbed (e : embed) : JValue :=
  .jobj [("title", .jstr e.Title), ("color", .jnum e.Color),
         ("description", .jstr e.Description)]

/-- `json.Marshal` on a `discordMessage`, following the struct tags
`content` / `embeds`.  The `content` field has no `omitempty`, so the empty
string still serializes. -/
def encodeMessage (m : discordMessage) : JValue :=
  .jobj [("content", .jstr m.Content), ("embeds", .jarr (m.Embeds.map encodeEmbed))]

/-- First field of a JSON object with the given key. -/
def getField (key : String) : List (String × JValue) → Option JValue
  | [] => none
  | (k, v) :: rest => if k = key then some v else getField key rest

/-- Read a JSON value as a string. -/
def asStr : JValue → Option String
  | .jstr s => some s
  | _ => none

/-- Read a JSON value as an integer. -/
def asNum : JValue → Option Int
  | .jnum n => some n
  | _ => none

/-- Read a JSON value as an array. -/
def asArr : JValue → Option (List JValue)
  | .jarr xs => some xs
  | _ => none

/-- Deserialize one embed from the wire format. -/
def decodeEmbed (j : JValue) : Option embed :=
  match j with
  | .jobj fields => do
      let t ← getField "title" fields >>= asStr
      let c ← getField "color" fields >>= asNum
      let d ← getField "description" fields >>= asStr
      pure { Title := t, Color := c, Description := d }
  | _ => none

/-- Deserialize each element of a JSON array as an embed. -/
def decodeEmbeds : List JValue → Option (List embed)
  | [] => some []
  | j :: rest => do
      let e ← decodeEmbed j
      let es ← decodeEmbeds rest
      pure (e :: es)

/-- Deserialize a `discordMessage` from the wire format. -/
def decodeMessage (j : JValue) : Option discordMessage :=
  match j with
  | .jobj fields => do
      let content ← getField "content" fields >>= asStr
      let embedsJ ← getField "embeds" fields >>= asArr
      let es ← decodeEmbeds embedsJ
      pure { Content := content, Embeds := es }
  | _ => none

/-! ## SendNotification -/

/-- Go `SendNotification` (main.go): return nil when the configured filter
matches; otherwise, when the `_APP_NAME` substitution is non-empty, build the
message, skip silently when there is none, serialize it, and POST it to the
webhook URL, propagating only a transport-level error.  First component is
the returned `error`, second is the effect trace. -/
def SendNotification (s : discordNotifier) (w : World) (build : Build) :
    Option String × List Effect :=
  if (match s.filter with | some f => f build | none => false) then (none, [])
  else if build.Substitutions "_APP_NAME" ≠ "" then
    match buildMessage w build with
    | ((msg, err), effs) =>
      let effs := Effect.logInfo ("sending discord webhook for Build " ++ build.Id) :: effs
      match err with
      | some e => (some ("failed to write discord message: " ++ e), effs)
      | none =>
        match msg with
        | none => (none, effs)
        | some m =>
          let payload := encodeMessage m
          let effs := effs ++ [.logInfo "sending payload", .httpPost s.webhookURL payload]
          match w.postOutcome with
          | .transportError e => (some e, effs)
          | .response _ => (none, effs ++ [.logInfo "got resp"])
  else (none, [])

/-! ## Spec-side table (section 4.2 of the spec) -/

/-- True exactly on the five statuses the switch handles. -/
def statusHandled : BuildStatus → Bool
  | .working | .success | .failure | .internalError | .timeout => true
  | _ => false

/-- The title column of the spec's status table. -/
def titleFor : BuildStatus → String
  | .working => "🔨 BUILDING"
  | .success => "✅ SUCCESS"
  | s => "❌ ERROR - " ++ statusName s

/-- The color column of the spec's status table. -/
def colorFor : BuildStatus → Int
  | .working => 1027128
  | .success => 1127128
  | _ => 14177041

/-- The single embed the switch produces for a handled status, before the
overlay: title and color from the table, description from the status's
template. -/
def mainEmbed (b : Build) : embed :=
  { Title := titleFor b.Status
    Color := colorFor b.Status
    Description := if b.Status = BuildStatus.success then descSuccess b else descBase b }

/-! ## Concrete fixtures for witnesses and counterexamples -/

/-- A substitution map holding `_APP_NAME` and `_URL`, all other keys absent
(yielding `""` as a Go map read does). -/
def subsOf (app url : String) : String → String :=
  fun k => if k = "_APP_NAME" then app else if k = "_URL" then url else ""

/-- A concrete build event, patterned on the repository's own test fixture. -/
def testBuild (st : BuildStatus) (app : String) (src : Option RepoSource) : Build :=
  { Id := "some-build-id"
    Status := st
    ProjectId := "my-project-id"
    LogUrl := "https://some.example.com/log/url?foo=bar"
    Substitutions := subsOf app "https://some.example.com"
    Source := src }

/-- A world with no DOJO_URL set and a 200 response to the POST. -/
def quietWorld : World := { dojoURL := "", dojoGetError := none, postOutcome := .response 200 }

/-- A world with a DOJO_URL set, a succeeding GET, and a 200 response. -/
def dojoWorld : World :=
  { dojoURL := "https://dojo.example.com", dojoGetError := none, postOutcome := .response 200 }

/-- A notifier with no filter configured. -/
def plainNotifier : discordNotifier := { filter := none, webhookURL := "https://hook.example.com" }

/-- A world with a DOJO_URL set and a failing GET. -/
def dojoFailWorld : World :=
  { dojoURL := "https://dojo.example.com", dojoGetError := some "boom",
    postOutcome := .response 200 }

/-- A world whose primary POST fails at the transport level. -/
def postFailWorld : World :=
  { dojoURL := "", dojoGetError := none, postOutcome := .transportError "connection refused" }

/-- A successful build with a non-empty repo source name. -/
def buildWithRepo : Build := testBuild .success "my-app" (some { RepoName := "R" })

/-- The message the notifier renders for `buildWithRepo`. -/
def msgWithRepo : discordMessage :=
  { Content := "", Embeds := [{ Title := "✅ SUCCESS", Color := 1127128, Description := "R" }] }

/-- The single embed of `msgWithRepo`. -/
def embedWithRepo : embed := { Title := "✅ SUCCESS", Color := 1127128, Description := "R" }

/-- A WORKING build with a repo source present whose name is empty. -/
def buildEmptyRepoName : Build := testBuild .working "my-app" (some { RepoName := "" })

/-- The message the notifier renders for `buildEmptyRepoName`. -/
def msgEmptyRepoName : discordMessage :=
  { Content := ""
    Embeds := [{ Title := "🔨 BUILDING", Color := 1027128,
                 Description := descBase buildEmptyRepoName }] }

/-- The single embed of `msgEmptyRepoName`. -/
def embedEmptyRepoName : embed :=
  { Title := "🔨 BUILDING", Color := 1027128, Description := descBase buildEmptyRepoName }

example :
    (buildMessage quietWorld (testBuild .success "my-app" none)).1.1 =
      some { Content := "",
             Embeds := [{ Title := "✅ SUCCESS", Color := 1127128,
                          Description := "Build ID: some-build-id\nService: my-app\nEnvironment: my-project-id\nLogs: https://some.example.com/log/url?foo=bar\nAccess: https://some.example.com" }] } := by
  decide

example : strContains "my-backend-svc" "backend" = true := by decide

example : strContains "my-frontend-svc" "backend" = false := by decide

example :
    getCount (buildMessage dojoWorld (testBuild .success "my-backend-svc" none)).2 = 1 := by
  decide

example :
    (buildMessage quietWorld (testBuild .queued "my-app" none)).1 = (none, none) := by
  decide

/-! ## Helper lemmas -/

@[simp]
theorem postCount_nil : postCount [] = 0 := rfl

@[simp]
theorem postCount_httpGet (u : String) (xs : List Effect) :
    postCount (.httpGet u :: xs) = postCount xs := rfl

@[simp]
theorem postCount_httpPost (u : String) (j : JValue) (xs : List Effect) :
    postCount (.httpPost u j :: xs) = postCount xs + 1 := rfl

@[simp]
theorem postCount_logInfo (s : String) (xs : List Effect) :
    postCount (.logInfo s :: xs) = postCount xs := rfl

@[simp]
theorem postCount_logError (s : String) (xs : List Effect) :
    postCount (.logError s :: xs) = postCount xs := rfl

@[simp]
theorem postCount_append (xs ys : List Effect) :
    postCount (xs ++ ys) = postCount xs + postCount ys := by
  induction xs with
  | nil => simp
  | cons x xs ih => cases x <;> simp [ih, Nat.add_right_comm]

@[simp]
theorem getCount_nil : getCount [] = 0 := rfl

@[simp]
theorem getCount_httpGet (u : String) (xs : List Effect) :
    getCount (.httpGet u :: xs) = getCount xs + 1 := rfl

@[simp]
theorem getCount_httpPost (u : String) (j : JValue) (xs : List Effect) :
    getCount (.httpPost u j :: xs) = getCount xs := rfl

@[simp]
theorem getCount_logInfo (s : String) (xs : List Effect) :
    getCount (.logInfo s :: xs) = getCount xs := rfl

@[simp]
theorem getCount_logError (s : String) (xs : List Effect) :
    getCount (.logError s :: xs) = getCount xs := rfl

@[simp]
theorem getCount_append (xs ys : List Effect) :
    getCount (xs ++ ys) = getCount xs + getCount ys := by
  induction xs with
  | nil => simp
  | cons x xs ih => cases x <;> simp [ih, Nat.add_right_comm]

theorem postCount_callDojo (w : World) : postCount (callDojo w) = 0 := by
  unfold callDojo
  split
  · cases w.dojoGetError <;> simp
  · rfl

theorem getCount_callDojo (w : World) (h : w.dojoURL ≠ "") :
    getCount (callDojo w) = 1 := by
  unfold callDojo
  rw [if_pos h]
  cases w.dojoGetError <;> simp

theorem callDojo_empty (w : World) (h : w.dojoURL = "") : callDojo w = [] := by
  unfold callDojo
  rw [if_neg]
  simp [h]

theorem switchEmbeds_fst (w : World) (b : Build) :
    (switchEmbeds w b).1 = if statusHandled b.Status then [mainEmbed b] else [] := by
  rcases b with ⟨id, st, pid, lu, subs, src⟩
  cases st <;> rfl

theorem postCount_switchEmbeds (w : World) (b : Build) :
    postCount (switchEmbeds w b).2 = 0 := by
  rcases b with ⟨id, st, pid, lu, subs, src⟩
  cases st <;> simp [switchEmbeds]
  split
  · exact postCount_callDojo w
  · rfl

theorem overlayFirst_singleton (s : String) (e : embed) :
    overlayFirst s [e] = if s = "" then [e] else [{ e with Description := s }] := by
  simp only [overlayFirst]

theorem overlayFirst_singleton_isEmpty (s : String) (e : embed) :
    (overlayFirst s [e]).isEmpty = false := by
  rw [overlayFirst_singleton]
  split <;> rfl

theorem buildMessage_fst (w : World) (b : Build) :
    (buildMessage w b).1 =
      (if statusHandled b.Status then
         some { Content := "", Embeds := overlayFirst (sourceTextOf b) [mainEmbed b] }
       else none,
       none) := by
  by_cases h : statusHandled b.Status
  · simp [buildMessage, switchEmbeds_fst, h, overlayFirst_singleton_isEmpty]
  · simp [buildMessage, switchEmbeds_fst, h, overlayFirst]

theorem buildMessage_snd (w : World) (b : Build) :
    getCount (buildMessage w b).2 = getCount (switchEmbeds w b).2 ∧
    postCount (buildMessage w b).2 = 0 := by
  simp only [buildMessage]
  split <;> simp [postCount_switchEmbeds]

theorem sendNotification_fst_char (s : discordNotifier) (w : World) (b : Build) :
    (SendNotification s w b).1 =
      if (match s.filter with | some f => f b | none => false) then none
      else if b.Substitutions "_APP_NAME" ≠ "" then
        match (buildMessage w b).1.1, w.postOutcome with
        | some _, .transportError e => some e
        | _, _ => none
      else none := by
  rcases hb : buildMessage w b with ⟨⟨msg, err⟩, effs⟩
  have hf := buildMessage_fst w b
  rw [hb] at hf
  injection hf with hmsg herr
  subst herr
  simp only [SendNotification, hb]
  split
  · rfl
  · split
    · cases msg
      · rfl
      · cases w.postOutcome <;> rfl
    · rfl

theorem sendNotification_post_char (s : discordNotifier) (w : World) (b : Build) :
    postCount (SendNotification s w b).2 =
      if (match s.filter with | some f => f b | none => false) then 0
      else if b.Substitutions "_APP_NAME" ≠ "" then
        match (buildMessage w b).1.1 with
        | some _ => 1
        | none => 0
      else 0 := by
  rcases hb : buildMessage w b with ⟨⟨msg, err⟩, effs⟩
  have hf := buildMessage_fst w b
  rw [hb] at hf
  injection hf with hmsg herr
  subst herr
  have hpc : postCount effs = 0 := by
    have h2 := (buildMessage_snd w b).2
    rw [hb] at h2
    exact h2
  simp only [SendNotification, hb]
  split
  · rfl
  · split
    · cases msg
      · simpa using hpc
      · cases w.postOutcome <;> simp [hpc]
    · rfl

/-! ## The claims -/

/-- C9: `buildMessage` never fails — for every build event (and every state of
the outside world) the error component of its result is nil; the only way it
declines to produce output is the nil-message, nil-error case. -/
theorem buildMessage_error_always_nil (w : World) (b : Build) :
    ((buildMessage w b).1).2 = none := by
  rw [buildMessage_fst]

/-- C1: for every build event whose status is one of WORKING, SUCCESS,
FAILURE, INTERNAL_ERROR, TIMEOUT (with any substitutions), `buildMessage`
produces a message, and every message it ever produces contains exactly one
embed whose title and color are the pair the status table fixes
(`titleFor` / `colorFor`); in particular a message never contains more than
one embed. -/
theorem buildMessage_one_embed_title_color (w : World) (b : Build) :
    (statusHandled b.Status = true → ((buildMessage w b).1.1).isSome = true) ∧
    (∀ m, (buildMessage w b).1.1 = some m →
      m.Embeds.length = 1 ∧
      ∀ e ∈ m.Embeds, e.Title = titleFor b.Status ∧ e.Color = colorFor b.Status) := by
  have hm1 : (buildMessage w b).1.1 =
      (if statusHandled b.Status then
        some { Content := "", Embeds := overlayFirst (sourceTextOf b) [mainEmbed b] }
      else none) := by
    rw [buildMessage_fst]
  constructor
  · intro h
    rw [hm1, if_pos h]
    rfl
  · intro m hm
    rw [hm1] at hm
    by_cases h : statusHandled b.Status
    · rw [if_pos h] at hm
      obtain rfl := (Option.some.inj hm).symm
      rw [overlayFirst_singleton]
      split <;> simp [mainEmbed]
    · rw [if_neg h] at hm
      simp at hm

/-- Witness for C1: a concrete WORKING build produces a message. -/
theorem buildMessage_one_embed_title_color_witness :
    ((buildMessage quietWorld (testBuild .working "my-app" none)).1.1).isSome = true :=
  (buildMessage_one_embed_title_color quietWorld (testBuild .working "my-app" none)).1
    (by decide)

/-- C2: for every build event whose status is not one of the five handled
statuses, `buildMessage` returns a nil message with a nil error, and
`SendNotification` then returns nil, performing no webhook POST for that
event. -/
theorem unhandled_status_skips_notification (s : discordNotifier) (w : World) (b : Build)
    (h : statusHandled b.Status = false) :
    (buildMessage w b).1 = (none, none) ∧
    (SendNotification s w b).1 = none ∧
    postCount (SendNotification s w b).2 = 0 := by
  have hbm : (buildMessage w b).1 = (none, none) := by
    rw [buildMessage_fst]
    simp [h]
  have hmsg : (buildMessage w b).1.1 = none := by rw [hbm]
  refine ⟨hbm, ?_, ?_⟩
  · rw [sendNotification_fst_char, hmsg]
    split
    · rfl
    · split
      · rfl
      · rfl
  · rw [sendNotification_post_char, hmsg]
    split
    · rfl
    · split
      · rfl
      · rfl

/-- Witness for C2 at a concrete QUEUED build. -/
theorem unhandled_status_skips_notification_witness :
    (buildMessage quietWorld (testBuild .queued "my-app" none)).1 = (none, none) :=
  (unhandled_status_skips_notification plainNotifier quietWorld
    (testBuild .queued "my-app" none) (by decide)).1

/-- C4: for every build event whose `_APP_NAME` substitution value is absent
or empty, `SendNotification` suppresses the notification regardless of the
build's status: it returns nil, constructs no message, and performs no
effects at all. -/
theorem empty_app_name_suppresses (s : discordNotifier) (w : World) (b : Build)
    (h : b.Substitutions "_APP_NAME" = "") :
    SendNotification s w b = (none, []) := by
  simp [SendNotification, h]

/-- Witness for C4 at a concrete build with the `_APP_NAME` substitution
empty. -/
theorem empty_app_name_suppresses_witness :
    SendNotification plainNotifier quietWorld (testBuild .working "" none) = (none, []) :=
  empty_app_name_suppresses plainNotifier quietWorld (testBuild .working "" none)
    (by decide)

/-- C3 counterexample: a SUCCESS build with a repo source present whose name
is the empty string.  The claim says the embed's description is overwritten
with the repository name alone (here `""`); the code leaves the full
status-template description, which is not the empty string. -/
theorem overlay_present_repo_cex :
    (buildMessage quietWorld (testBuild .success "my-app" (some { RepoName := "" }))).1.1 =
      some { Content := ""
             Embeds := [{ Title := "✅ SUCCESS", Color := 1127128,
                          Description := "Build ID: some-build-id\nService: my-app\nEnvironment: my-project-id\nLogs: https://some.example.com/log/url?foo=bar\nAccess: https://some.example.com" }] } ∧
    ("Build ID: some-build-id\nService: my-app\nEnvironment: my-project-id\nLogs: https://some.example.com/log/url?foo=bar\nAccess: https://some.example.com" ≠ "") := by
  constructor
  · decide
  · decide

/-- C3 (amended): for every build event with a source-repository reference
present whose repository name is non-empty, and for which an embed was
produced, the embed's description is overwritten with the repository name
alone; in particular, for a SUCCESS event with repo name "R" the produced
embed's description equals exactly "R". -/
theorem overlay_overwrites_description (w : World) (b : Build) (r : RepoSource)
    (hsrc : b.Source = some r) (hne : r.RepoName ≠ "")
    (m : discordMessage) (hm : (buildMessage w b).1.1 = some m) :
    ∀ e ∈ m.Embeds, e.Description = r.RepoName := by
  intro e he
  have hm1 : (buildMessage w b).1.1 =
      (if statusHandled b.Status then
        some { Content := "", Embeds := overlayFirst (sourceTextOf b) [mainEmbed b] }
      else none) := by
    rw [buildMessage_fst]
  rw [hm1] at hm
  by_cases hs : statusHandled b.Status
  · rw [if_pos hs] at hm
    obtain rfl := (Option.some.inj hm).symm
    have hsrc' : sourceTextOf b = r.RepoName := by simp [sourceTextOf, hsrc]
    rw [show ({ Content := "", Embeds := overlayFirst (sourceTextOf b) [mainEmbed b] } :
        discordMessage).Embeds = overlayFirst (sourceTextOf b) [mainEmbed b] from rfl,
      hsrc', overlayFirst_singleton, if_neg hne] at he
    simp at he
    rw [he]
  · rw [if_neg hs] at hm
    simp at hm

/-- Witness for C3 (amended): the SUCCESS build with repo name "R" yields an
embed whose description is exactly "R". -/
theorem overlay_overwrites_description_witness : embedWithRepo.Description = "R" :=
  overlay_overwrites_description quietWorld buildWithRepo { RepoName := "R" }
    (by decide) (by decide) msgWithRepo (by decide) embedWithRepo (by decide)

/-- C10: when a source-repository reference is present but its repository
name is the empty string, the overlay is not applied — every embed of the
produced message keeps the status-specific template description. -/
theorem empty_repo_name_keeps_template (w : World) (b : Build) (r : RepoSource)
    (hsrc : b.Source = some r) (hname : r.RepoName = "")
    (m : discordMessage) (hm : (buildMessage w b).1.1 = some m) :
    ∀ e ∈ m.Embeds,
      e.Description =
        (if b.Status = BuildStatus.success then descSuccess b else descBase b) := by
  intro e he
  have hm1 : (buildMessage w b).1.1 =
      (if statusHandled b.Status then
        some { Content := "", Embeds := overlayFirst (sourceTextOf b) [mainEmbed b] }
      else none) := by
    rw [buildMessage_fst]
  rw [hm1] at hm
  by_cases hs : statusHandled b.Status
  · rw [if_pos hs] at hm
    obtain rfl := (Option.some.inj hm).symm
    have hsrc' : sourceTextOf b = "" := by simp [sourceTextOf, hsrc, hname]
    rw [show ({ Content := "", Embeds := overlayFirst (sourceTextOf b) [mainEmbed b] } :
        discordMessage).Embeds = overlayFirst (sourceTextOf b) [mainEmbed b] from rfl,
      hsrc', overlayFirst_singleton, if_pos rfl] at he
    simp at he
    rw [he]
    rfl
  · rw [if_neg hs] at hm
    simp at hm

/-- Witness for C10: the WORKING build with an empty repo name keeps the
WORKING template description. -/
theorem empty_repo_name_keeps_template_witness :
    embedEmptyRepoName.Description = descBase buildEmptyRepoName :=
  empty_repo_name_keeps_template quietWorld buildEmptyRepoName { RepoName := "" }
    (by decide) (by decide) msgEmptyRepoName (by decide) embedEmptyRepoName (by decide)

/-- C5: with a secondary URL configured, `buildMessage` performs exactly one
GET for an event if and only if the event's status is SUCCESS and its
`_APP_NAME` substitution value contains the literal substring "backend"
(case-sensitive substring containment, not exact match). -/
theorem dojo_trigger_iff (w : World) (b : Build) (h : w.dojoURL ≠ "") :
    getCount (buildMessage w b).2 = 1 ↔
      (b.Status = BuildStatus.success ∧
       strContains (b.Substitutions "_APP_NAME") "backend" = true) := by
  rw [(buildMessage_snd w b).1]
  rcases b with ⟨id, st, pid, lu, subs, src⟩
  cases st <;> simp [switchEmbeds]
  split
  next hc => simp [hc, getCount_callDojo w h]
  next hc => simp [hc]

/-- Witness for C5: the trigger fires exactly once for a SUCCESS build with
`_APP_NAME` = "my-backend-svc". -/
theorem dojo_trigger_iff_witness :
    getCount (buildMessage dojoWorld (testBuild .success "my-backend-svc" none)).2 = 1 :=
  (dojo_trigger_iff dojoWorld (testBuild .success "my-backend-svc" none)
    (by decide)).mpr (by decide)

/-- C6: the secondary trigger is fire-and-forget — when the configured URL is
empty the GET is skipped silently (no effects at all); when the GET fails the
failure is only logged; and the outcome of the secondary trigger (the URL and
the GET result) never alters the message produced for the event or the error
result of the primary notification path. -/
theorem dojo_fire_and_forget (s : discordNotifier) (w₁ w₂ : World) (b : Build) (e : String) :
    (w₁.dojoURL = "" → callDojo w₁ = []) ∧
    (w₁.dojoURL ≠ "" → w₁.dojoGetError = some e →
      callDojo w₁ = [.httpGet w₁.dojoURL, .logError ("Failed to call dojo " ++ e)]) ∧
    (w₁.postOutcome = w₂.postOutcome →
      (buildMessage w₁ b).1 = (buildMessage w₂ b).1 ∧
      (SendNotification s w₁ b).1 = (SendNotification s w₂ b).1) := by
  refine ⟨callDojo_empty w₁, ?_, ?_⟩
  · intro h he
    unfold callDojo
    rw [if_pos h, he]
  · intro hpost
    have hbm11 : (buildMessage w₁ b).1.1 = (buildMessage w₂ b).1.1 := by
      rw [buildMessage_fst, buildMessage_fst]
    constructor
    · rw [buildMessage_fst, buildMessage_fst]
    · rw [sendNotification_fst_char, sendNotification_fst_char, hbm11, hpost]

/-- Witness for C6: in a world where the secondary GET fails, the trigger
performs the GET and only logs the failure. -/
theorem dojo_fire_and_forget_witness :
    callDojo dojoFailWorld =
      [.httpGet "https://dojo.example.com", .logError "Failed to call dojo boom"] :=
  (dojo_fire_and_forget plainNotifier dojoFailWorld quietWorld
    (testBuild .success "my-app" none) "boom").2.1 (by decide) (by decide)

/-- C7: for every delivered event the primary webhook delivery performs a
single POST; a transport-level error from the POST is returned as the result
of `SendNotification`, while a non-error HTTP response of any status code
(including non-2xx) yields a nil result — the response status is never
inspected. -/
theorem delivery_single_post (s : discordNotifier) (w : World) (b : Build)
    (hf : (match s.filter with | some f => f b | none => false) = false)
    (ha : b.Substitutions "_APP_NAME" ≠ "")
    (hs : statusHandled b.Status = true) :
    postCount (SendNotification s w b).2 = 1 ∧
    (∀ e, w.postOutcome = .transportError e → (SendNotification s w b).1 = some e) ∧
    (∀ c, w.postOutcome = .response c → (SendNotification s w b).1 = none) := by
  have hmsg : (buildMessage w b).1.1 =
      some { Content := "", Embeds := overlayFirst (sourceTextOf b) [mainEmbed b] } := by
    rw [buildMessage_fst]
    simp [hs]
  refine ⟨?_, ?_, ?_⟩
  · rw [sendNotification_post_char, hmsg]
    simp [hf, ha]
  · intro e hp
    rw [sendNotification_fst_char, hmsg, hp]
    simp [hf, ha]
  · intro c hp
    rw [sendNotification_fst_char, hmsg, hp]
    simp [hf, ha]

/-- Witness for C7: a delivered SUCCESS build performs exactly one POST. -/
theorem delivery_single_post_witness :
    postCount (SendNotification plainNotifier quietWorld (testBuild .success "my-app" none)).2 = 1 :=
  (delivery_single_post plainNotifier quietWorld (testBuild .success "my-app" none)
    rfl (by decide) (by decide)).1

theorem decodeEmbed_encodeEmbed (e : embed) : decodeEmbed (encodeEmbed e) = some e := rfl

theorem decodeEmbeds_map_encode (xs : List embed) :
    decodeEmbeds (xs.map encodeEmbed) = some xs := by
  induction xs with
  | nil => rfl
  | cons x xs ih => simp [decodeEmbeds, decodeEmbed_encodeEmbed, ih]

/-- C8: serializing any NotificationMessage (content plus a sequence of
embeds each with title, color, description) to the JSON wire format and then
deserializing yields a message field-for-field equal to the original. -/
theorem message_roundtrip (m : discordMessage) :
    decodeMessage (encodeMessage m) = some m := by
  rcases m with ⟨content, embeds⟩
  have h1 : decodeMessage (encodeMessage { Content := content, Embeds := embeds }) =
      decodeEmbeds (embeds.map encodeEmbed) >>= fun es =>
        some { Content := content, Embeds := es } := rfl
  rw [h1, decodeEmbeds_map_encode]
  rfl

end DiscordNotifier
